import Mathlib

/- Verification of the kubearmor-client log-observer subsystem.
   The development shallowly embeds `log/log.go` (the observer controller,
   filter compilation, shutdown release and stop request) and
   `utils/kubearmor.go` (port forwarding: pod lookup and local-port
   allocation).  External collaborators (the Go `regexp` package, the
   network stack, the cluster API, the randomness source) are modelled as
   explicit parameters or as executable models of the library contract. -/

open RegularExpression

/- ### Model of the Go `regexp` library (external collaborator)

   `log.go` calls `regexp.Compile` on the seven filter strings and the
   compiled programs are used for unanchored matching.  We model the
   fragment of RE2 syntax that the observer exercises: literal characters,
   grouping `( )`, alternation, `*` `+` `?` repetition, and a leading
   `(?i)` case-insensitivity flag (the only way `log.go` produces the
   flag).  Character classes, escapes, anchors, `.` and counted repetition
   are outside the modelled fragment and are rejected by the model. -/

/-- Literal character under an optional case-insensitivity flag: with the
flag set, a pattern letter matches both its lower- and upper-case form,
which is Go's `(?i)` folding restricted to ASCII-style simple folding. -/
def mkLit (ci : Bool) (c : Char) : RegularExpression Char :=
  if ci then
    if c.toLower = c.toUpper then RegularExpression.char c
    else RegularExpression.char c.toLower + RegularExpression.char c.toUpper
  else RegularExpression.char c

/-- Characters that are metacharacters (or outside the modelled fragment)
and therefore cannot stand as a plain literal atom. -/
def isMeta (c : Char) : Bool :=
  c = '|' || c = ')' || c = '(' || c = '*' || c = '+' || c = '?' ||
  c = '[' || c = ']' || c = '{' || c = '}' || c = '.' || c = '\\' ||
  c = '^' || c = '$'

/-- Recursive-descent parse of the modelled regexp fragment.  The second
argument is fuel (every call decreases it), the third is the grammar
level: 0 = alternation, 1 = concatenation, 2 = repetition, ≥3 = atom.
Returns the parsed regular expression and the unconsumed input. -/
def parseRe (ci : Bool) : Nat → Nat → List Char → Option (RegularExpression Char × List Char)
  | 0, _, _ => none
  | fuel + 1, 0, s =>
    match parseRe ci fuel 1 s with
    | none => none
    | some (r, s1) =>
      match s1 with
      | '|' :: s2 =>
        match parseRe ci fuel 0 s2 with
        | none => none
        | some (r2, s3) => some (r + r2, s3)
      | _ => some (r, s1)
  | fuel + 1, 1, s =>
    match s with
    | [] => some (1, [])
    | c :: _ =>
      if c = '|' || c = ')' then some (1, s)
      else
        match parseRe ci fuel 2 s with
        | none => none
        | some (r, s1) =>
          match parseRe ci fuel 1 s1 with
          | none => none
          | some (r2, s2) => some (r * r2, s2)
  | fuel + 1, 2, s =>
    match parseRe ci fuel 3 s with
    | none => none
    | some (r, s1) =>
      match s1 with
      | '*' :: s2 => some (r.star, s2)
      | '+' :: s2 => some (r * r.star, s2)
      | '?' :: s2 => some (r + 1, s2)
      | _ => some (r, s1)
  | fuel + 1, _, s =>
    match s with
    | [] => none
    | c :: rest =>
      if c = '(' then
        match parseRe ci fuel 0 rest with
        | some (r, ')' :: s2) => some (r, s2)
        | _ => none
      else if isMeta c then none
      else some (mkLit ci c, rest)

/-- Model of `regexp.Compile`: strips a leading `(?i)` flag (which is how
`log.go` requests case-insensitive matching), parses the body, and fails
with an error naming the pattern when the body is not a valid expression
of the fragment, mirroring Go's error value carrying the expression. -/
def hasCiFlag : List Char → Bool
  | '(' :: '?' :: 'i' :: ')' :: _ => true
  | _ => false

def compileGo (pat : String) : Except String (RegularExpression Char) :=
  let chars := pat.data
  let ci := hasCiFlag chars
  let body := if ci then chars.drop 4 else chars
  match parseRe ci (4 * body.length + 8) 0 body with
  | some (r, []) => Except.ok r
  | _ => Except.error ("error parsing regexp: " ++ pat)

/-- Unanchored matching, the semantics of Go's `Regexp.MatchString`: the
pattern matches the string iff some contiguous substring is in the
pattern's language. -/
def goMatches (r : RegularExpression Char) (s : String) : Bool :=
  s.data.tails.any (fun t => t.inits.any (fun v => r.rmatch v))

/- ### Embedding of `log.go` -/

/-- Options structure of `log.go` (the `EventChan` channel field carries
no value relevant to the embedded control flow and is omitted; `Limit` is
a Go `uint32`, embedded as `Nat` since no arithmetic is performed on it). -/
structure Options where
  GRPC : String
  MsgPath : String
  LogPath : String
  LogFilter : String
  JSON : Bool
  Namespace : String
  LogType : String
  Operation : String
  ContainerName : String
  PodName : String
  Source : String
  Resource : String
  Limit : Nat
  Selector : List String
deriving Repr

/-- The seven compiled filter programs (`CNamespace` … `CResource`). -/
structure CompiledSet where
  cNamespace : RegularExpression Char
  cLogtype : RegularExpression Char
  cOperation : RegularExpression Char
  cContainerName : RegularExpression Char
  cPodName : RegularExpression Char
  cSource : RegularExpression Char
  cResource : RegularExpression Char

/-- Embedding of `regexCompile` in `log.go`: compiles the seven filter strings in
source order, returning the first error; the first five patterns are
prefixed with the `(?i)` flag, source and resource are compiled verbatim. -/
def regexCompile (o : Options) : Except String CompiledSet :=
  match compileGo ("(?i)" ++ o.Namespace) with
  | Except.error e => Except.error e
  | Except.ok cn =>
  match compileGo ("(?i)" ++ o.LogType) with
  | Except.error e => Except.error e
  | Except.ok cl =>
  match compileGo ("(?i)" ++ o.Operation) with
  | Except.error e => Except.error e
  | Except.ok cop =>
  match compileGo ("(?i)" ++ o.ContainerName) with
  | Except.error e => Except.error e
  | Except.ok cc =>
  match compileGo ("(?i)" ++ o.PodName) with
  | Except.error e => Except.error e
  | Except.ok cp =>
  match compileGo o.Source with
  | Except.error e => Except.error e
  | Except.ok cs =>
  match compileGo o.Resource with
  | Except.error e => Except.error e
  | Except.ok cr => Except.ok ⟨cn, cl, cop, cc, cp, cs, cr⟩

/-- The seven pattern strings exactly as `regexCompile` hands them to
`regexp.Compile`, in source order: the first five carry the `(?i)`
case-insensitivity marker, the last two are verbatim. -/
def patternsOf (o : Options) : List String :=
  ["(?i)" ++ o.Namespace, "(?i)" ++ o.LogType, "(?i)" ++ o.Operation,
   "(?i)" ++ o.ContainerName, "(?i)" ++ o.PodName, o.Source, o.Resource]

/-- Specification-side description of fail-fast compilation: the error of
the first pattern in the list that fails to compile, if any. -/
def firstFailure : List String → Option String
  | [] => none
  | p :: rest =>
    match compileGo p with
    | Except.error e => some e
    | Except.ok _ => firstFailure rest

/- ### The `StartObserver` control flow of `log.go` (lines 118-211)

   The controller's behaviour up to its blocking wait is a pure function
   of the options and of the results of its external collaborators, which
   we gather in `Env`: the `KUBEARMOR_SERVICE` environment variable, the
   outcome of `utils.InitiatePortForward`, whether `NewClient` returned a
   non-nil client, and the boolean of `DoHealthCheck`.  The function
   returns the ordered list of side-effecting launches performed and
   either `some r` when `StartObserver` returns before reaching its
   blocking wait (`r` is the returned error or nil) or `none` when the
   session reaches the wait at line 184 with all watchers launched. -/

inductive ObsAction where
  | portForwardStart
  | printDefaults
  | watchMessages
  | watchAlerts
  | watchLogs
deriving DecidableEq, Repr

structure Env where
  kubearmorService : Option String
  portForward : Except String Int
  clientOk : Bool
  healthOk : Bool

/-- Resolution of the gRPC target (lines 119-131): explicit option first,
then the environment variable, then port forwarding (whose failure is
returned to the caller). -/
def resolveGRPC (e : Env) (o : Options) : List ObsAction × Except String String :=
  if o.GRPC ≠ "" then ([], Except.ok o.GRPC)
  else
    match e.kubearmorService with
    | some v => ([], Except.ok v)
    | none =>
      match e.portForward with
      | Except.error err => ([ObsAction.portForwardStart], Except.error err)
      | Except.ok lp => ([ObsAction.portForwardStart], Except.ok ("localhost:" ++ toString lp))

/-- The filter mode is one of the three accepted values (line 138). -/
def validLogFilter (o : Options) : Prop :=
  o.LogFilter = "all" ∨ o.LogFilter = "policy" ∨ o.LogFilter = "system"

instance (o : Options) : Decidable (validLogFilter o) := by
  unfold validLogFilter; infer_instance

/-- Embedding of `StartObserver` up to (and excluding) the blocking wait of line 184:
the launches performed, and `some r` when the function returns early with
result `r`, `none` when it reaches the wait. -/
def startObserverPre (e : Env) (o : Options) : List ObsAction × Option (Except String Unit) :=
  match resolveGRPC e o with
  | (acts, Except.error err) => (acts, some (Except.error err))
  | (acts, Except.ok _) =>
    if o.MsgPath = "none" ∧ o.LogPath = "none" then
      (acts ++ [ObsAction.printDefaults], some (Except.ok ()))
    else if ¬ validLogFilter o then
      (acts ++ [ObsAction.printDefaults], some (Except.ok ()))
    else if e.clientOk = false then
      (acts, some (Except.error "unable to create log client"))
    else if e.healthOk = false then
      (acts, some (Except.error "failed to check the liveness of the gRPC server"))
    else
      let acts1 := acts ++ (if o.MsgPath ≠ "none" then [ObsAction.watchMessages] else [])
      match regexCompile o with
      | Except.error err => (acts1, some (Except.error err))
      | Except.ok _ =>
        let acts2 := acts1 ++
          (if o.LogPath ≠ "none" ∧ (o.LogFilter = "all" ∨ o.LogFilter = "policy") then
            [ObsAction.watchAlerts] else [])
        let acts3 := acts2 ++
          (if o.LogPath ≠ "none" ∧ (o.LogFilter = "all" ∨ o.LogFilter = "system") then
            [ObsAction.watchLogs] else [])
        (acts3, none)

/- ### The blocking wait (lines 184-203) and `StopObserver`

   With a bounded quota the controller performs two (filter mode `all`)
   or one receive on `Limitchan`; otherwise it polls `unblockSignal`,
   which is set by an arriving OS signal or by `StopObserver`.  We model
   the events that can reach the waiting controller as a list and fold
   the controller's reaction over it. -/

inductive WaitEv where
  | report
  | signal
  | stopCall
deriving DecidableEq, Repr

/-- State visible to the waiting controller: quota-completion reports
received on `Limitchan`, and the `unblockSignal` flag. -/
structure WaitState where
  reportsReceived : Nat
  unblockSignal : Bool
deriving Repr

/-- Effect of one event: a quota report adds a receivable message on
`Limitchan`; an OS signal is turned into `unblockSignal = true` by the
polling loop; `StopObserver` sets `unblockSignal` directly. -/
def waitStep (st : WaitState) : WaitEv → WaitState
  | WaitEv.report => { st with reportsReceived := st.reportsReceived + 1 }
  | WaitEv.signal => { st with unblockSignal := true }
  | WaitEv.stopCall => { st with unblockSignal := true }

/-- The wait starts with no reports received and `unblockSignal` reset to
`false` (line 193). -/
def runWait (evs : List WaitEv) : WaitState :=
  evs.foldl waitStep ⟨0, false⟩

/-- Number of receives the bounded-quota gate performs: two when the
filter mode is `all`, one otherwise (lines 185-190). -/
def requiredReports (o : Options) : Nat :=
  if o.LogFilter = "all" then 2 else 1

/-- Whether the controller's blocking wait has unblocked after the given
events: with `Limit ≠ 0` it has completed its receives on `Limitchan`
exactly when enough reports arrived; with `Limit = 0` it has observed
`unblockSignal`. -/
def controllerUnblocked (o : Options) (evs : List WaitEv) : Bool :=
  if o.Limit ≠ 0 then requiredReports o ≤ (runWait evs).reportsReceived
  else (runWait evs).unblockSignal

/-- Embedding of `StopObserver` in `log.go`: sets `unblockSignal` and touches nothing
else. -/
def stopObserver (st : WaitState) : WaitState :=
  { st with unblockSignal := true }

/- ### `closeStopChan` (lines 109-115)

   The shared cancellation resource `StopChan` is a Go channel variable:
   either nil or an allocated channel that is open or closed.  We model it
   as `Option Bool` (`none` = nil, `some false` = open, `some true` =
   closed).  `close` on a closed channel panics in Go, which the model
   returns as an error; `closeStopChan` guards the nil case and nils the
   variable after closing. -/

def closeStopChan : Option Bool → Except String (Option Bool)
  | none => Except.ok none
  | some true => Except.error "close of closed channel"
  | some false => Except.ok none

/- ### `utils/kubearmor.go`: pod lookup and local-port allocation -/

/-- A pod as returned by the cluster list call: name and namespace. -/
structure Pod where
  name : String
  podNamespace : String
deriving Repr

/-- The `PortForwardOpt` structure (`MatchLabels` kept abstract as an
association list). -/
structure PortForwardOpt where
  localPort : Int
  remotePort : Int
  matchLabels : List (String × String)
  podNamespace : String
  podName : String
deriving Repr

/-- The lease as `InitiatePortForward` (lines 249-255) builds it before
any lookup: preferred ports, empty namespace (which makes the pod list
call search across all namespaces), pod name at its zero value. -/
def initialLease (localPort remotePort : Int) (ml : List (String × String)) : PortForwardOpt :=
  { localPort := localPort, remotePort := remotePort, matchLabels := ml,
    podNamespace := "", podName := "" }

/-- Embedding of `getPodName` (lines 324-342).  The cluster is modelled as a function
from the namespace argument of the list call to its result (the pods
matching the label selector, or the call's error).  On a non-empty list
the first pod is selected and both the pod name and the namespace of the
lease are overwritten; on an empty list an error is reported and the
lease is left as it was. -/
def getPodName (cluster : String → Except String (List Pod)) (pf : PortForwardOpt) :
    PortForwardOpt × Option String :=
  match cluster pf.podNamespace with
  | Except.error e => (pf, some e)
  | Except.ok [] => (pf, some "kubearmor pod not found")
  | Except.ok (p :: _) =>
    ({ pf with podName := p.name, podNamespace := p.podNamespace }, none)

/-- Bound handed to `rand.Int` in `getRandomInt` (line 368), written as
the source computes it. -/
def randBound : Nat := 32900 - 32768

/-- Environment of the local-port loop: whether a bind on a port
succeeds, whether closing the probe listener fails, and the successive
results of the randomness source (`none` = `rand.Int` failed; a success
is below the bound by the contract of `rand.Int`). -/
structure NetEnv where
  bindFree : Int → Bool
  closeFails : Int → Bool
  randDraw : Nat → Option (Fin randBound)

/-- Embedding of `getLocalPort` (lines 345-364) with explicit fuel, since the Go loop
is unbounded.  Arguments: fuel, the port to try next, the index of the
next random draw.  `none` means the fuel ran out with the loop still
running; `some r` is the function's return value.  A successful bind is
immediately closed (a close failure aborts with that error); a failed
bind draws a random offset (a randomness failure aborts with the
`getRandomInt` error) and retries at `32768 + draw`. -/
def getLocalPortAux (env : NetEnv) : Nat → Int → Nat → Option (Except String Int)
  | 0, _, _ => none
  | fuel + 1, port, draws =>
    if env.bindFree port then
      if env.closeFails port then some (Except.error "close failed")
      else some (Except.ok port)
    else
      match env.randDraw draws with
      | none => some (Except.error "unable to generate random integer for port")
      | some n => getLocalPortAux env fuel ((n : Nat) + 32768) (draws + 1)

/-- The ports the loop attempts, in order (same loop as
`getLocalPortAux`, recording the candidate of each iteration). -/
def attemptedPorts (env : NetEnv) : Nat → Int → Nat → List Int
  | 0, _, _ => []
  | fuel + 1, port, draws =>
    port ::
      (if env.bindFree port then []
       else
         match env.randDraw draws with
         | none => []
         | some n => attemptedPorts env fuel ((n : Nat) + 32768) (draws + 1))

/- ### Derived observations used in the statements -/

/-- Number of quota-completion reports in an event list. -/
def countReports (evs : List WaitEv) : Nat :=
  (evs.filter (fun e => decide (e = WaitEv.report))).length

/-- Whether an OS signal or a `StopObserver` call occurs in an event
list (the two writers of `unblockSignal`). -/
def hasStopSignal (evs : List WaitEv) : Bool :=
  evs.any (fun e => decide (e = WaitEv.signal) || decide (e = WaitEv.stopCall))

/- ### Concrete fixtures for witnesses and counterexamples -/

/-- Collaborator environment in which every external step succeeds. -/
def envOk : Env :=
  { kubearmorService := none, portForward := Except.ok 32767,
    clientOk := true, healthOk := true }

/-- Baseline options: direct address, both outputs to stdout, filter mode
`all`, all filters empty, unbounded quota. -/
def optBase : Options :=
  { GRPC := "addr", MsgPath := "stdout", LogPath := "stdout",
    LogFilter := "all", JSON := false, Namespace := "", LogType := "",
    Operation := "", ContainerName := "", PodName := "", Source := "",
    Resource := "", Limit := 0, Selector := [] }

/-- Options with an invalid namespace filter pattern. -/
def optBadRegex : Options := { optBase with Namespace := "(" }

/-- Options with both output destinations disabled. -/
def optNoDest : Options := { optBase with MsgPath := "none", LogPath := "none" }

/-- Options with the same filter string for the case-insensitive
namespace filter and the case-sensitive source filter. -/
def optCase : Options :=
  { optBase with Namespace := "kube-system", Source := "kube-system" }

/-- Options with a bounded quota and filter mode `all`. -/
def optQuotaAll : Options := { optBase with Limit := 5 }

/-- Options with a bounded quota and a single active category. -/
def optQuotaPolicy : Options := { optBase with Limit := 5, LogFilter := "policy" }

/-- Network environment in which only the default port is taken, closing
never fails and the randomness source always yields 5. -/
def netEnvDefaultBusy : NetEnv :=
  { bindFree := fun p => decide (p ≠ 32767), closeFails := fun _ => false,
    randDraw := fun _ => some ⟨5, by decide⟩ }

/-- Network environment in which every port is taken and randomness
works. -/
def netEnvAllBusy : NetEnv :=
  { bindFree := fun _ => false, closeFails := fun _ => false,
    randDraw := fun _ => some ⟨0, by decide⟩ }

/-- Cluster in which the label-matched list call returns one pod. -/
def clusterOnePod : String → Except String (List Pod) :=
  fun _ => Except.ok [{ name := "kubearmor-relay-abc", podNamespace := "kubearmor" }]

/-- Cluster in which the label-matched list call returns no pods. -/
def clusterNoPod : String → Except String (List Pod) :=
  fun _ => Except.ok []

/- ### Sanity checks of the executable model -/

example : compileGo "" = Except.ok 1 := rfl
example : compileGo "(?i)" = Except.ok 1 := rfl
example : (compileGo "(?i)(").isOk = false := rfl
example : goMatches ((compileGo "(?i)kube-system").toOption.getD 0) "Kube-System" = true := by
  decide
example : goMatches ((compileGo "(?i)kube-system").toOption.getD 0) "default" = false := by
  decide

/- ### Helper lemmas -/

lemma resolveGRPC_acts (e : Env) (o : Options) :
    ∀ a ∈ (resolveGRPC e o).1, a = ObsAction.portForwardStart := by
  intro a ha
  unfold resolveGRPC at ha
  repeat' split at ha
  all_goals simp_all

/- ### C4 -/

/-- C4: the shutdown release `closeStopChan` is idempotent: whenever a
release succeeds the resulting state is the released one (`none`) and a
second release on that state is a safe no-op with the same terminal
state; composing the release with itself equals a single release on every
session state; and releasing a never-initialized resource is a safe
no-op. -/
theorem closeStopChan_idempotent_safe :
    (∀ s s', closeStopChan s = Except.ok s' →
      s' = none ∧ closeStopChan s' = Except.ok s') ∧
    (∀ s, (closeStopChan s).bind closeStopChan = closeStopChan s) ∧
    closeStopChan none = Except.ok none := by
  refine ⟨?_, ?_, rfl⟩
  · intro s s' h
    cases s with
    | none =>
      injection h with h2
      subst h2
      exact ⟨rfl, rfl⟩
    | some b =>
      cases b with
      | false =>
        injection h with h2
        subst h2
        exact ⟨rfl, rfl⟩
      | true => exact Except.noConfusion h
  · intro s
    match s with
    | none => rfl
    | some false => rfl
    | some true => rfl

/-- Witness for C4 at the open-channel state. -/
theorem closeStopChan_idempotent_safe_witness :
    (none : Option Bool) = none ∧ closeStopChan none = Except.ok none :=
  closeStopChan_idempotent_safe.1 (some false) none rfl

/- ### C10 -/

/-- C10: automatic endpoint discovery performs the pod list call with an
empty namespace (all namespaces); a non-empty label-matched list always
yields its first pod, overwriting the lease namespace with that pod's
namespace; an empty list yields the lookup error with the lease's pod
name still at its unset zero value. -/
theorem pod_lookup_all_namespaces_first_pod :
    ∀ (cluster : String → Except String (List Pod)) (lp rp : Int)
      (ml : List (String × String)),
      (initialLease lp rp ml).podNamespace = "" ∧
      (cluster "" = Except.ok [] →
        (getPodName cluster (initialLease lp rp ml)).2 = some "kubearmor pod not found" ∧
        (getPodName cluster (initialLease lp rp ml)).1.podName = "") ∧
      (∀ p rest, cluster "" = Except.ok (p :: rest) →
        (getPodName cluster (initialLease lp rp ml)).1.podName = p.name ∧
        (getPodName cluster (initialLease lp rp ml)).1.podNamespace = p.podNamespace ∧
        (getPodName cluster (initialLease lp rp ml)).2 = none) := by
  intro cluster lp rp ml
  refine ⟨rfl, ?_, ?_⟩
  · intro h
    simp [getPodName, initialLease, h]
  · intro p rest h
    simp [getPodName, initialLease, h]

/-- Witness for C10 on a one-pod cluster. -/
theorem pod_lookup_all_namespaces_first_pod_witness :
    (getPodName clusterOnePod (initialLease 32767 32767 [])).1.podName =
      "kubearmor-relay-abc" ∧
    (getPodName clusterOnePod (initialLease 32767 32767 [])).1.podNamespace =
      "kubearmor" ∧
    (getPodName clusterOnePod (initialLease 32767 32767 [])).2 = none :=
  (pod_lookup_all_namespaces_first_pod clusterOnePod 32767 32767 []).2.2
    { name := "kubearmor-relay-abc", podNamespace := "kubearmor" } [] rfl

/- ### C2 -/

lemma runWait_foldl (evs : List WaitEv) : ∀ st : WaitState,
    (evs.foldl waitStep st).reportsReceived = st.reportsReceived + countReports evs ∧
    (evs.foldl waitStep st).unblockSignal = (st.unblockSignal || hasStopSignal evs) := by
  induction evs with
  | nil => intro st; simp [countReports, hasStopSignal]
  | cons e rest ih =>
    intro st
    cases e <;>
      simp [List.foldl, waitStep, countReports, hasStopSignal, ih,
        Nat.add_comm, Nat.add_assoc, Nat.add_left_comm]

lemma runWait_reports (evs : List WaitEv) :
    (runWait evs).reportsReceived = countReports evs := by
  have h := runWait_foldl evs ⟨0, false⟩
  simpa [runWait] using h.1

lemma runWait_unblock (evs : List WaitEv) :
    (runWait evs).unblockSignal = hasStopSignal evs := by
  have h := runWait_foldl evs ⟨0, false⟩
  simpa [runWait] using h.2

/-- C2: with a bounded quota the controller's wait unblocks exactly when
2 quota-completion reports arrived under filter mode `all` and exactly
when 1 arrived under any other mode; with an unbounded quota the wait
never consults the completion gate and unblocks exactly on the signal
path (an OS signal or a stop request setting `unblockSignal`). -/
theorem bounded_quota_gate_counts_and_unbounded_signal_wait :
    ∀ (o : Options) (evs : List WaitEv),
      (o.Limit ≠ 0 → o.LogFilter = "all" →
        (controllerUnblocked o evs = true ↔ 2 ≤ countReports evs)) ∧
      (o.Limit ≠ 0 → o.LogFilter ≠ "all" →
        (controllerUnblocked o evs = true ↔ 1 ≤ countReports evs)) ∧
      (o.Limit = 0 → controllerUnblocked o evs = hasStopSignal evs) := by
  intro o evs
  refine ⟨?_, ?_, ?_⟩
  · intro hl hf
    simp [controllerUnblocked, requiredReports, hl, hf, runWait_reports]
  · intro hl hf
    simp [controllerUnblocked, requiredReports, hl, hf, runWait_reports]
  · intro hl
    simp [controllerUnblocked, hl, runWait_unblock]

/-- Witness for C2: quota 5 in mode `all` unblocks on two reports. -/
theorem bounded_quota_gate_counts_witness :
    controllerUnblocked optQuotaAll [WaitEv.report, WaitEv.report] = true :=
  ((bounded_quota_gate_counts_and_unbounded_signal_wait optQuotaAll
      [WaitEv.report, WaitEv.report]).1 (by decide) rfl).mpr (by decide)

/- ### C9 -/

/-- C9: `StopObserver` writes only the `unblockSignal` flag (the state of
the completion gate is untouched), and with a bounded quota the
controller's wait stays blocked on any sequence of stop requests and
signals that contains no quota-completion report. -/
theorem stopObserver_does_not_unblock_quota_gate :
    (∀ st : WaitState, (stopObserver st).reportsReceived = st.reportsReceived ∧
      (stopObserver st).unblockSignal = true) ∧
    (∀ (o : Options) (evs : List WaitEv), o.Limit ≠ 0 →
      (∀ e ∈ evs, e = WaitEv.stopCall ∨ e = WaitEv.signal) →
      controllerUnblocked o evs = false) := by
  constructor
  · intro st
    exact ⟨rfl, rfl⟩
  · intro o evs hl hevs
    have hcount : countReports evs = 0 := by
      simp only [countReports, List.length_eq_zero]
      rw [List.filter_eq_nil_iff]
      intro e he
      rcases hevs e he with h | h <;> simp [h]
    have hreq : 1 ≤ requiredReports o := by
      unfold requiredReports
      split <;> decide
    have hzero : (runWait evs).reportsReceived = 0 := by
      rw [runWait_reports, hcount]
    simp only [controllerUnblocked, if_pos hl, hzero]
    simp only [decide_eq_false_iff_not]
    omega

/-- Witness for C9: two stop requests leave a bounded-quota session
blocked. -/
theorem stopObserver_does_not_unblock_quota_gate_witness :
    controllerUnblocked optQuotaPolicy [WaitEv.stopCall, WaitEv.stopCall] = false :=
  stopObserver_does_not_unblock_quota_gate.2 optQuotaPolicy
    [WaitEv.stopCall, WaitEv.stopCall] (by decide) (by decide)

/- ### C7 -/

lemma mem_attemptedPorts (env : NetEnv) :
    ∀ (fuel : Nat) (port : Int) (draws : Nat) (q : Int),
      q ∈ attemptedPorts env fuel port draws →
      q = port ∨ (32768 ≤ q ∧ q < 32900) := by
  intro fuel
  induction fuel with
  | zero => intro port draws q hq; simp [attemptedPorts] at hq
  | succ fuel ih =>
    intro port draws q hq
    rw [attemptedPorts] at hq
    rcases List.mem_cons.mp hq with h | h
    · exact Or.inl h
    · right
      split at h
      · simp at h
      · rcases hdraw : env.randDraw draws with _ | n
        · rw [hdraw] at h; simp at h
        · rw [hdraw] at h
          rcases ih _ _ _ h with h1 | h1
          · subst h1
            have hn : (n : Nat) < randBound := n.isLt
            have : (randBound : Nat) = 132 := rfl
            constructor <;> omega
          · exact h1

lemma getLocalPortAux_ok (env : NetEnv) :
    ∀ (fuel : Nat) (port : Int) (draws : Nat) (p : Int),
      getLocalPortAux env fuel port draws = some (Except.ok p) →
      p = port ∨ (32768 ≤ p ∧ p < 32900) := by
  intro fuel
  induction fuel with
  | zero => intro port draws p hp; simp [getLocalPortAux] at hp
  | succ fuel ih =>
    intro port draws p hp
    rw [getLocalPortAux] at hp
    split at hp
    · split at hp
      · simp at hp
      · simp only [Option.some.injEq, Except.ok.injEq] at hp
        exact Or.inl hp.symm
    · rcases hdraw : env.randDraw draws with _ | n
      · rw [hdraw] at hp; simp at hp
      · rw [hdraw] at hp
        rcases ih _ _ _ hp with h1 | h1
        · subst h1
          have hn : (n : Nat) < randBound := n.isLt
          have : (randBound : Nat) = 132 := rfl
          right; constructor <;> omega
        · exact Or.inr h1

/-- C7: the random retry range is exactly 132 contiguous ports; every
candidate the allocation loop attempts after the preferred port is a
uniformly drawn offset below 132 added to the base 32768, hence in
[32768, 32899] and strictly above the default 32767; and when the
preferred default port 32767 is bound, a successful allocation returns a
port of that fallback range. -/
theorem fallback_ports_within_range :
    randBound = 132 ∧
    (∀ (env : NetEnv) (fuel : Nat) (port : Int) (draws : Nat) (q : Int),
      q ∈ (attemptedPorts env fuel port draws).tail →
      32768 ≤ q ∧ q ≤ 32899 ∧ 32767 < q) ∧
    (∀ (env : NetEnv) (fuel : Nat) (draws : Nat) (p : Int),
      env.bindFree 32767 = false →
      getLocalPortAux env fuel 32767 draws = some (Except.ok p) →
      32768 ≤ p ∧ p ≤ 32899) := by
  refine ⟨rfl, ?_, ?_⟩
  · intro env fuel port draws q hq
    cases fuel with
    | zero => simp [attemptedPorts] at hq
    | succ fuel =>
      rw [attemptedPorts] at hq
      simp only [List.tail_cons] at hq
      have hrange : 32768 ≤ q ∧ q < 32900 := by
        split at hq
        · simp at hq
        · rcases hdraw : env.randDraw draws with _ | n
          · rw [hdraw] at hq; simp at hq
          · rw [hdraw] at hq
            rcases mem_attemptedPorts env _ _ _ _ hq with h1 | h1
            · subst h1
              have hn : (n : Nat) < randBound := n.isLt
              have : (randBound : Nat) = 132 := rfl
              constructor <;> omega
            · exact h1
      exact ⟨hrange.1, by omega, by omega⟩
  · intro env fuel draws p hbusy hp
    cases fuel with
    | zero => simp [getLocalPortAux] at hp
    | succ fuel =>
      rw [getLocalPortAux, hbusy] at hp
      simp only [Bool.false_eq_true, if_false] at hp
      rcases hdraw : env.randDraw draws with _ | n
      · rw [hdraw] at hp; simp at hp
      · rw [hdraw] at hp
        rcases getLocalPortAux_ok env _ _ _ _ hp with h1 | h1
        · subst h1
          have hn : (n : Nat) < randBound := n.isLt
          have : (randBound : Nat) = 132 := rfl
          constructor <;> omega
        · exact ⟨h1.1, by omega⟩

/-- Witness for C7: with 32767 bound and the draw 5, allocation returns
32773, inside the fallback range. -/
theorem fallback_ports_within_range_witness :
    32768 ≤ (32773 : Int) ∧ (32773 : Int) ≤ 32899 :=
  fallback_ports_within_range.2.2 netEnvDefaultBusy 2 0 32773 rfl rfl

/- ### C8 -/

/-- C8: local-port allocation surfaces an error exactly for non-bind
failures: when randomness always works and closing never fails, no amount
of bind failures produces an error; when every port is bound the loop
runs forever for every fuel bound (no retry cap) without surfacing an
error; a close failure on a bindable port and a randomness failure on a
busy port each abort allocation with their error. -/
theorem local_port_error_iff_nonbind :
    (∀ (env : NetEnv), (∀ i, (env.randDraw i).isSome) →
      (∀ p, env.closeFails p = false) →
      ∀ (fuel : Nat) (port : Int) (draws : Nat) (r : Except String Int),
        getLocalPortAux env fuel port draws = some r → ∃ p, r = Except.ok p) ∧
    (∀ (env : NetEnv), (∀ p, env.bindFree p = false) →
      (∀ i, (env.randDraw i).isSome) →
      ∀ (fuel : Nat) (port : Int) (draws : Nat),
        getLocalPortAux env fuel port draws = none) ∧
    (∀ (env : NetEnv) (fuel : Nat) (port : Int) (draws : Nat),
      env.bindFree port = true → env.closeFails port = true →
      getLocalPortAux env (fuel + 1) port draws =
        some (Except.error "close failed")) ∧
    (∀ (env : NetEnv) (fuel : Nat) (port : Int) (draws : Nat),
      env.bindFree port = false → env.randDraw draws = none →
      getLocalPortAux env (fuel + 1) port draws =
        some (Except.error "unable to generate random integer for port")) := by
  refine ⟨?_, ?_, ?_, ?_⟩
  · intro env hrand hclose fuel
    induction fuel with
    | zero => intro port draws r hr; simp [getLocalPortAux] at hr
    | succ fuel ih =>
      intro port draws r hr
      rw [getLocalPortAux] at hr
      split at hr
      · rw [hclose port] at hr
        simp only [Bool.false_eq_true, if_false, Option.some.injEq] at hr
        exact ⟨port, hr.symm⟩
      · rcases hdraw : env.randDraw draws with _ | n
        · have := hrand draws
          rw [hdraw] at this
          simp at this
        · rw [hdraw] at hr
          exact ih _ _ _ hr
  · intro env hbusy hrand fuel
    induction fuel with
    | zero => intro port draws; simp [getLocalPortAux]
    | succ fuel ih =>
      intro port draws
      rw [getLocalPortAux, hbusy port]
      simp only [Bool.false_eq_true, if_false]
      rcases hdraw : env.randDraw draws with _ | n
      · have := hrand draws
        rw [hdraw] at this
        simp at this
      · exact ih _ _
  · intro env fuel port draws hbind hclose
    rw [getLocalPortAux, hbind, hclose]
    simp
  · intro env fuel port draws hbind hdraw
    rw [getLocalPortAux, hbind, hdraw]
    simp

/-- Witness for C8: with every port bound and working randomness, the
loop neither returns nor errors within any fuel bound. -/
theorem local_port_error_iff_nonbind_witness :
    getLocalPortAux netEnvAllBusy 5 32767 0 = none :=
  local_port_error_iff_nonbind.2.1 netEnvAllBusy (fun _ => rfl) (fun _ => rfl)
    5 32767 0

/- ### C5 -/

lemma regexCompile_ok_parts {o : Options} {cs : CompiledSet}
    (h : regexCompile o = Except.ok cs) :
    compileGo ("(?i)" ++ o.Namespace) = Except.ok cs.cNamespace ∧
    compileGo ("(?i)" ++ o.LogType) = Except.ok cs.cLogtype ∧
    compileGo ("(?i)" ++ o.Operation) = Except.ok cs.cOperation ∧
    compileGo ("(?i)" ++ o.ContainerName) = Except.ok cs.cContainerName ∧
    compileGo ("(?i)" ++ o.PodName) = Except.ok cs.cPodName ∧
    compileGo o.Source = Except.ok cs.cSource ∧
    compileGo o.Resource = Except.ok cs.cResource := by
  unfold regexCompile at h
  repeat' split at h
  all_goals first
    | exact Except.noConfusion h
    | (injection h with h2; subst h2
       exact ⟨by assumption, by assumption, by assumption, by assumption,
         by assumption, by assumption, by assumption⟩)

lemma regexCompile_eq_firstFailure (o : Options) (e : String) :
    regexCompile o = Except.error e ↔ firstFailure (patternsOf o) = some e := by
  unfold regexCompile patternsOf
  simp only [firstFailure]
  repeat' split
  all_goals simp_all

/-- C5: filter compilation walks the seven patterns in the fixed source
order — the five case-insensitively marked patterns (namespace,
event-kind, operation, container name, pod name) first, then the
verbatim source and resource patterns — and returns exactly the first
compilation error of that sequence; and on the scenario options the
case-insensitive namespace matcher compiled from `kube-system` accepts
`Kube-System` and rejects `default`, while the verbatim source matcher
compiled from the same string is case-sensitive. -/
theorem regexCompile_order_and_case_sensitivity :
    (∀ (o : Options) (e : String),
      regexCompile o = Except.error e ↔ firstFailure (patternsOf o) = some e) ∧
    (∃ cs, regexCompile optCase = Except.ok cs ∧
      goMatches cs.cNamespace "Kube-System" = true ∧
      goMatches cs.cNamespace "default" = false ∧
      goMatches cs.cSource "kube-system" = true ∧
      goMatches cs.cSource "Kube-System" = false) := by
  refine ⟨regexCompile_eq_firstFailure, ⟨_, rfl, ?_, ?_, ?_, ?_⟩⟩ <;> decide

/-- Witness for C5: an invalid namespace pattern is reported as the first
failure of the ordered pattern list. -/
theorem regexCompile_order_witness :
    regexCompile optBadRegex = Except.error "error parsing regexp: (?i)(" :=
  (regexCompile_order_and_case_sensitivity.1 optBadRegex
    "error parsing regexp: (?i)(").mpr rfl

/- ### C6 -/

lemma goMatches_one (s : String) :
    goMatches (1 : RegularExpression Char) s = true := by
  unfold goMatches
  rw [List.any_eq_true]
  refine ⟨[], (List.mem_tails _ _).mpr List.nil_suffix, ?_⟩
  rfl

/-- C6: an empty filter string compiles (the empty pattern itself is
handed to the compiler, no filter is skipped) and yields the matcher
accepting every input string; with all seven filters empty the whole set
compiles to seven such matchers, and for each of the seven filters
individually an empty string yields an accept-everything matcher in any
successfully compiled set. -/
theorem empty_filter_accepts_everything :
    regexCompile optBase = Except.ok ⟨1, 1, 1, 1, 1, 1, 1⟩ ∧
    (∀ s : String, goMatches (1 : RegularExpression Char) s = true) ∧
    (∀ (o : Options) (cs : CompiledSet), regexCompile o = Except.ok cs →
      (o.Namespace = "" → ∀ s, goMatches cs.cNamespace s = true) ∧
      (o.LogType = "" → ∀ s, goMatches cs.cLogtype s = true) ∧
      (o.Operation = "" → ∀ s, goMatches cs.cOperation s = true) ∧
      (o.ContainerName = "" → ∀ s, goMatches cs.cContainerName s = true) ∧
      (o.PodName = "" → ∀ s, goMatches cs.cPodName s = true) ∧
      (o.Source = "" → ∀ s, goMatches cs.cSource s = true) ∧
      (o.Resource = "" → ∀ s, goMatches cs.cResource s = true)) := by
  refine ⟨rfl, goMatches_one, ?_⟩
  intro o cs h
  have parts := regexCompile_ok_parts h
  refine ⟨?_, ?_, ?_, ?_, ?_, ?_, ?_⟩
  · intro hf s
    rw [hf] at parts
    have h1 : (Except.ok (1 : RegularExpression Char) : Except String _) =
        Except.ok cs.cNamespace := parts.1
    injection h1 with h2
    rw [← h2]
    exact goMatches_one s
  · intro hf s
    rw [hf] at parts
    have h1 : (Except.ok (1 : RegularExpression Char) : Except String _) =
        Except.ok cs.cLogtype := parts.2.1
    injection h1 with h2
    rw [← h2]
    exact goMatches_one s
  · intro hf s
    rw [hf] at parts
    have h1 : (Except.ok (1 : RegularExpression Char) : Except String _) =
        Except.ok cs.cOperation := parts.2.2.1
    injection h1 with h2
    rw [← h2]
    exact goMatches_one s
  · intro hf s
    rw [hf] at parts
    have h1 : (Except.ok (1 : RegularExpression Char) : Except String _) =
        Except.ok cs.cContainerName := parts.2.2.2.1
    injection h1 with h2
    rw [← h2]
    exact goMatches_one s
  · intro hf s
    rw [hf] at parts
    have h1 : (Except.ok (1 : RegularExpression Char) : Except String _) =
        Except.ok cs.cPodName := parts.2.2.2.2.1
    injection h1 with h2
    rw [← h2]
    exact goMatches_one s
  · intro hf s
    rw [hf] at parts
    have h1 : (Except.ok (1 : RegularExpression Char) : Except String _) =
        Except.ok cs.cSource := parts.2.2.2.2.2.1
    injection h1 with h2
    rw [← h2]
    exact goMatches_one s
  · intro hf s
    rw [hf] at parts
    have h1 : (Except.ok (1 : RegularExpression Char) : Except String _) =
        Except.ok cs.cResource := parts.2.2.2.2.2.2
    injection h1 with h2
    rw [← h2]
    exact goMatches_one s

/-- Witness for C6: in the all-empty filter set, the namespace matcher
accepts a sample string. -/
theorem empty_filter_accepts_everything_witness :
    goMatches (CompiledSet.mk 1 1 1 1 1 1 1).cNamespace "kube-system" = true :=
  (empty_filter_accepts_everything.2.2 optBase ⟨1, 1, 1, 1, 1, 1, 1⟩
    empty_filter_accepts_everything.1).1 rfl "kube-system"

/- ### C1 -/

/-- Counterexample to C1 as stated: with a reachable configuration whose
namespace filter is an invalid pattern, `StartObserver` does return the
compilation error, but the raw-message watcher has already been started
before filter compilation, so a watcher is started and events can be
pulled before the error is returned. -/
theorem watchMessages_started_before_failing_compile :
    (startObserverPre envOk optBadRegex).2 =
      some (Except.error "error parsing regexp: (?i)(") ∧
    ObsAction.watchMessages ∈ (startObserverPre envOk optBadRegex).1 := by
  constructor
  · rfl
  · decide

/-- C1 (amended): for every configuration whose filter strings contain an
invalid pattern, no alert watcher and no log watcher is ever started and
`StartObserver` always returns before reaching its blocking wait; when
the run reaches filter compilation (address resolved, destinations and
filter mode valid, client created, health check passed) the returned
value is exactly the compilation error.  Only the raw-message watcher,
which needs no filters, may already have been started. -/
theorem invalid_filter_aborts_before_alert_and_log_watchers :
    ∀ (e : Env) (o : Options) (err : String), regexCompile o = Except.error err →
      ObsAction.watchAlerts ∉ (startObserverPre e o).1 ∧
      ObsAction.watchLogs ∉ (startObserverPre e o).1 ∧
      (startObserverPre e o).2 ≠ none ∧
      ((resolveGRPC e o).2.isOk = true →
        ¬(o.MsgPath = "none" ∧ o.LogPath = "none") →
        validLogFilter o → e.clientOk = true → e.healthOk = true →
        (startObserverPre e o).2 = some (Except.error err)) := by
  intro e o err hre
  have hacts := resolveGRPC_acts e o
  unfold startObserverPre
  rcases hg : resolveGRPC e o with ⟨acts, res⟩
  rw [hg] at hacts
  dsimp only at hacts
  cases res with
  | error msg =>
    refine ⟨?_, ?_, by simp, ?_⟩
    · intro hmem
      exact absurd (hacts _ hmem) (by decide)
    · intro hmem
      exact absurd (hacts _ hmem) (by decide)
    · intro hok
      exact Bool.noConfusion hok
  | ok g =>
    dsimp only
    rw [hre]
    dsimp only
    split_ifs with h1 h2 h3 h4 h5 <;>
      refine ⟨?_, ?_, by simp, ?_⟩ <;>
      try (intro hmem
           first
             | exact absurd (hacts _ hmem) (by decide)
             | (rcases List.mem_append.mp hmem with h | h
                · exact absurd (hacts _ h) (by decide)
                · simp at h))
    all_goals intro hok hdest hvalid hclient hhealth
    all_goals first
      | rfl
      | exact absurd h1 hdest
      | exact absurd hvalid h2
      | (rw [hclient] at h3; exact absurd h3 (by decide))
      | (rw [hhealth] at h4; exact absurd h4 (by decide))

/-- Witness for C1 (amended) at the counterexample configuration. -/
theorem invalid_filter_aborts_witness :
    (startObserverPre envOk optBadRegex).2 =
      some (Except.error "error parsing regexp: (?i)(") :=
  (invalid_filter_aborts_before_alert_and_log_watchers envOk optBadRegex
    "error parsing regexp: (?i)(" rfl).2.2.2 rfl (by decide) (by decide) rfl rfl

/- ### C3 -/

/-- Counterexample to C3 as stated: with both output destinations
disabled, `StartObserver` does not surface any error — it prints the flag
defaults and returns a nil error. -/
theorem invalid_destinations_return_nil_not_error :
    (startObserverPre envOk optNoDest).2 = some (Except.ok ()) ∧
    (startObserverPre envOk optNoDest).1 = [ObsAction.printDefaults] := by
  constructor
  · rfl
  · rfl

/-- C3 (amended): for every configuration with both category
destinations disabled or an invalid filter mode, once the address
resolves `StartObserver` returns immediately with a nil error (after
printing the flag defaults), before any watcher is started and before any
concurrent log work begins. -/
theorem invalid_config_returns_nil_before_watchers :
    ∀ (e : Env) (o : Options),
      ((o.MsgPath = "none" ∧ o.LogPath = "none") ∨ ¬ validLogFilter o) →
      (resolveGRPC e o).2.isOk = true →
      (startObserverPre e o).2 = some (Except.ok ()) ∧
      ObsAction.watchMessages ∉ (startObserverPre e o).1 ∧
      ObsAction.watchAlerts ∉ (startObserverPre e o).1 ∧
      ObsAction.watchLogs ∉ (startObserverPre e o).1 := by
  intro e o hbad hok
  have hacts := resolveGRPC_acts e o
  unfold startObserverPre
  rcases hg : resolveGRPC e o with ⟨acts, res⟩
  rw [hg] at hacts
  dsimp only at hacts
  cases res with
  | error msg =>
    rw [hg] at hok
    exact Bool.noConfusion hok
  | ok g =>
    dsimp only
    have hmem3 : ∀ w : ObsAction, w ≠ ObsAction.portForwardStart →
        w ≠ ObsAction.printDefaults → w ∉ acts ++ [ObsAction.printDefaults] := by
      intro w hw hw2 hmem
      rcases List.mem_append.mp hmem with h | h
      · exact hw (hacts _ h)
      · simp at h
        exact hw2 h
    by_cases hdest : o.MsgPath = "none" ∧ o.LogPath = "none"
    · rw [if_pos hdest]
      exact ⟨rfl, hmem3 _ (by decide) (by decide), hmem3 _ (by decide) (by decide),
        hmem3 _ (by decide) (by decide)⟩
    · have hfilter : ¬ validLogFilter o := by
        rcases hbad with h | h
        · exact absurd h hdest
        · exact h
      rw [if_neg hdest, if_pos hfilter]
      exact ⟨rfl, hmem3 _ (by decide) (by decide), hmem3 _ (by decide) (by decide),
        hmem3 _ (by decide) (by decide)⟩

/-- Witness for C3 (amended) at the disabled-destinations configuration. -/
theorem invalid_config_returns_nil_witness :
    (startObserverPre envOk optNoDest).2 = some (Except.ok ()) :=
  (invalid_config_returns_nil_before_watchers envOk optNoDest
    (Or.inl ⟨rfl, rfl⟩) rfl).1
